import Mathlib

/-!
Shallow embedding of `reinforcement_learning/gail/gail_training_example.py`.

The script builds nnabla computation graphs.  We embed graph construction
symbolically: an `NExpr` is a node of the computation graph, and graph-building
primitives (`PF.affine`, `nn.parameter_scope`, `get_parameter_or_create`) run in
a state monad `NNB` that tracks the current parameter-scope stack and the list
of parameters created so far, mirroring nnabla's global parameter registry.
Weight-initializer arguments (`w_init=...`) only affect initial numeric values,
never the graph structure or the parameter scoping, so they are not modelled.
-/

/-- A created nnabla parameter: its full scope path (outermost scope first,
parameter name last) and its shape. -/
structure Param where
  path : List String
  shape : List Nat
deriving DecidableEq

/-- Symbolic nnabla computation-graph node. `affine` records the scope path
under which its `W`/`b` parameters live and its `n_outmaps`; `pvar` is a bare
parameter variable returned by `get_parameter_or_create`; `reshapeM1 x d1 d2`
is `F.reshape(x, shape=(-1, d1, d2))`; `split1 x i` is the `i`-th slice of
`F.split(x, axis=1)`; `mulScalar` is multiplication by a python float literal,
kept as a rational. -/
inductive NExpr where
  | input (id : Nat) (shape : List Nat)
  | pvar (path : List String) (shape : List Nat)
  | affine (x : NExpr) (scopePath : List String) (n_outmaps : Nat)
  | relu (x : NExpr)
  | tanh (x : NExpr)
  | concat2 (x y : NExpr)
  | reshapeM1 (x : NExpr) (d1 d2 : Nat)
  | split1 (x : NExpr) (i : Nat)
  | broadcastTo (x : NExpr) (shape : List Nat)
  | mulScalar (x : NExpr) (c : Rat)
deriving DecidableEq

/-- nnabla broadcast compatibility: same rank, and each source dim is 1 or
equals the target dim. -/
def broadcastable : List Nat → List Nat → Bool
  | [], [] => true
  | x :: xs, y :: ys => (x == 1 || x == y) && broadcastable xs ys
  | _, _ => false

/-- Shape semantics of a graph node; `none` when nnabla would reject the
graph with a shape error. `affine` flattens all but the batch axis, but every
use in this script is on 2-D inputs, so only that case is given a shape. -/
def eshape : NExpr → Option (List Nat)
  | .input _ sh => some sh
  | .pvar _ sh => some sh
  | .affine x _ n =>
    match eshape x with
    | some [b, _] => some [b, n]
    | _ => none
  | .relu x => eshape x
  | .tanh x => eshape x
  | .concat2 x y =>
    match eshape x, eshape y with
    | some [b, d1], some [b', d2] => if b = b' then some [b, d1 + d2] else none
    | _, _ => none
  | .reshapeM1 x d1 d2 =>
    match eshape x with
    | some [b, k] => if k = d1 * d2 then some [b, d1, d2] else none
    | _ => none
  | .split1 x i =>
    match eshape x with
    | some [b, c, a] => if i < c then some [b, a] else none
    | _ => none
  | .broadcastTo x sh =>
    match eshape x with
    | some xs => if broadcastable xs sh then some sh else none
    | none => none
  | .mulScalar x _ => eshape x

/-- Leading (batch) dimension of a node, as python's `x.shape[0]`. -/
def dim0 (e : NExpr) : Nat := ((eshape e).getD []).headD 0

/-- Trailing dimension of a node, as python's `x.shape[-1]` /
`x.shape[1]` for 2-D inputs; this is the input size of an affine layer. -/
def lastDim (e : NExpr) : Nat := ((eshape e).getD []).getLastD 0

/-- Graph-construction state: nnabla's current parameter-scope stack and the
parameters created so far, in creation order. -/
structure PState where
  stack : List String
  params : List Param
deriving DecidableEq

/-- Graph-building computations: state monad over `PState`. -/
def NNB (α : Type) : Type := StateM PState α

instance : Monad NNB := inferInstanceAs (Monad (StateM PState))

/-- `with nn.parameter_scope(name): body` — push `name` for the body, restore
the previous stack afterwards, keep the created parameters. -/
def parameter_scope (name : String) (body : NNB α) : NNB α := fun st =>
  let (a, st') := body { st with stack := st.stack ++ [name] }
  (a, { st' with stack := st.stack })

/-- `nn.parameter.get_parameter_or_create(name, shape=...)` under the current
scope stack (a single forward pass, so the parameter is always fresh). -/
def get_parameter_or_create (name : String) (shape : List Nat) : NNB NExpr := fun st =>
  let path := st.stack ++ [name]
  (NExpr.pvar path shape, { st with params := st.params ++ [⟨path, shape⟩] })

namespace PF

/-- `PF.affine(x, n_outmaps=n, name=...)`: creates `affine/W : (in, n)` and
`affine/b : (n,)` under the current scope stack (extended by `name` when
given) and returns the affine node. -/
def affine (x : NExpr) (n_outmaps : Nat) (name : Option String) : NNB NExpr := fun st =>
  let base := st.stack ++ name.toList
  let w : Param := ⟨base ++ ["affine", "W"], [lastDim x, n_outmaps]⟩
  let b : Param := ⟨base ++ ["affine", "b"], [n_outmaps]⟩
  (NExpr.affine x base n_outmaps, { st with params := st.params ++ [w, b] })

end PF

namespace F

def relu (x : NExpr) : NExpr := NExpr.relu x

def tanh (x : NExpr) : NExpr := NExpr.tanh x

/-- `F.concatenate(x, y, axis=1)`. -/
def concatenate (x y : NExpr) : NExpr := NExpr.concat2 x y

/-- `F.reshape(x, shape=(-1, d1, d2))`. -/
def reshape (x : NExpr) (d1 d2 : Nat) : NExpr := NExpr.reshapeM1 x d1 d2

/-- `F.split(x, axis=1)` on an axis of size 2, destructured into a pair. -/
def split2 (x : NExpr) : NExpr × NExpr := (NExpr.split1 x 0, NExpr.split1 x 1)

/-- `F.broadcast(x, shape)`. -/
def broadcast (x : NExpr) (shape : List Nat) : NExpr := NExpr.broadcastTo x shape

end F

/-- A `nnabla_rl` Gaussian distribution node: mean and log-variance graphs. -/
structure Gaussian where
  mean : NExpr
  ln_var : NExpr
deriving DecidableEq

/-- Run a graph-building computation from an empty scope stack and empty
parameter registry; yields the result and the created parameters. -/
def runNN (m : NNB α) : α × List Param :=
  let (a, st) := m ⟨[], []⟩
  (a, st.params)

/-- `ExampleClassicControlVFunction.v` from the script. -/
def ExampleClassicControlVFunction.v (scope_name : String) (s : NExpr) : NNB NExpr :=
  parameter_scope scope_name (do
    let h ← parameter_scope "affine1" (do
      let h ← PF.affine s 64 none
      pure (F.relu h))
    let h ← parameter_scope "affine2" (do
      let h ← PF.affine h 64 none
      pure (F.relu h))
    let h ← parameter_scope "affine3" (PF.affine h 1 none)
    pure h)

/-- `ExampleMujocoVFunction.v` from the script. -/
def ExampleMujocoVFunction.v (scope_name : String) (s : NExpr) : NNB NExpr :=
  parameter_scope scope_name (do
    let h ← PF.affine s 100 (some "linear1")
    let h := F.tanh h
    let h ← PF.affine h 100 (some "linear2")
    let h := F.tanh h
    let h ← PF.affine h 1 (some "linear3")
    pure h)

/-- `ExampleClassicControlPolicy.pi` from the script. -/
def ExampleClassicControlPolicy.pi (scope_name : String) (action_dim : Nat) (s : NExpr) :
    NNB Gaussian :=
  parameter_scope scope_name (do
    let h ← parameter_scope "affine1" (do
      let h ← PF.affine s 64 none
      pure (F.relu h))
    let h ← parameter_scope "affine2" (do
      let h ← PF.affine h 64 none
      pure (F.relu h))
    let h ← parameter_scope "affine3" (PF.affine h (action_dim * 2) none)
    let reshaped := F.reshape h 2 action_dim
    let (mean, ln_sigma) := F.split2 reshaped
    let ln_var := NExpr.mulScalar ln_sigma 2
    pure ⟨mean, ln_var⟩)

/-- `ExampleMujocoPolicy.pi` from the script.  The python `assert` on the
shape of `mean` is modelled by returning `none` when it fails (the raised
`AssertionError` aborts before `ln_sigma` is created). -/
def ExampleMujocoPolicy.pi (scope_name : String) (action_dim : Nat) (s : NExpr) :
    NNB (Option Gaussian) :=
  parameter_scope scope_name (do
    let h ← PF.affine s 100 (some "linear1")
    let h := F.tanh h
    let h ← PF.affine h 100 (some "linear2")
    let h := F.tanh h
    let mean ← PF.affine h action_dim (some "linear3")
    if eshape mean = some [dim0 s, action_dim] then do
      let ln_sigma ← get_parameter_or_create "ln_sigma" [1, action_dim]
      let ln_var := NExpr.mulScalar (F.broadcast ln_sigma [dim0 s, action_dim]) 2
      pure (some ⟨mean, ln_var⟩)
    else
      pure none)

/-- `ExampleClassicDiscriminator.r` from the script: the next state is unused
("In gail, we don't use the next state"); the concatenation happens before
entering the parameter scope. -/
def ExampleClassicDiscriminator.r (scope_name : String)
    (s_current a_current s_next : NExpr) : NNB NExpr :=
  let h := F.concatenate s_current a_current
  parameter_scope scope_name (do
    let h ← PF.affine h 64 (some "linear1")
    let h := F.tanh h
    let h ← PF.affine h 64 (some "linear2")
    let h := F.tanh h
    let h ← PF.affine h 1 (some "linear3")
    pure h)

/-- `ExampleMujocoDiscriminator.r` from the script; identical to the classic
one except for the hidden width of 100. -/
def ExampleMujocoDiscriminator.r (scope_name : String)
    (s_current a_current s_next : NExpr) : NNB NExpr :=
  let h := F.concatenate s_current a_current
  parameter_scope scope_name (do
    let h ← PF.affine h 100 (some "linear1")
    let h := F.tanh h
    let h ← PF.affine h 100 (some "linear2")
    let h := F.tanh h
    let h ← PF.affine h 1 (some "linear3")
    pure h)

/-! ## The script level: environments, builders, configuration, `train()` -/

/-- Gym environments as wrapped by the script: a base `gym.make(env_name)`
environment, possibly wrapped in the library's `NumpyFloat32Env` and
`ScreenRenderEnv` wrappers. -/
inductive Env where
  | base (env_name : String)
  | numpyFloat32 (e : Env)
  | screenRender (e : Env)
deriving DecidableEq

/-- Whether the outermost wrapper is `ScreenRenderEnv`. -/
def Env.isScreenRendered : Env → Bool
  | .screenRender _ => true
  | _ => false

/-- `build_classic_control_env(env_name, render)` from the script (the python
default for `render` is `False`; call sites pass it explicitly here). -/
def build_classic_control_env (env_name : String) (render : Bool) : Env :=
  let env := Env.base env_name
  let env := Env.numpyFloat32 env
  if render then Env.screenRender env else env

/-- The expert replay buffer obtained by unpickling; its contents are not
inspected by the script, so it is kept abstract as an identifier. -/
structure ExpertBuffer where
  id : Nat
deriving DecidableEq

/-- Outcome of `open("./pendulum_v1_expert_buffer.pkl", mode="rb")` followed by
`pickle.load`: the file may be absent (`open` raises), unpicklable
(`pickle.load` raises), or loaded. -/
inductive PickleOutcome where
  | absent
  | unpicklable
  | loaded (buf : ExpertBuffer)
deriving DecidableEq

/-- `GAILConfig` as used by the script: the four constructor keywords it
passes, plus the two learning-rate fields its solver builders read (their
values come from the external library's defaults, so `train` below is
parametric in them). -/
structure GAILConfig where
  gpu_id : Int
  pi_batch_size : Nat
  num_steps_per_iteration : Nat
  discriminator_batch_size : Nat
  vf_learning_rate : Rat
  discriminator_learning_rate : Rat
deriving DecidableEq

/-- `env_info` as consumed by the model builders: only `action_dim` is read. -/
structure EnvInfo where
  action_dim : Nat
deriving DecidableEq

/-- Result of a policy builder: which model class was instantiated, with its
constructor arguments. -/
inductive PolicyModel where
  | exampleMujocoPolicy (scope_name : String) (action_dim : Nat)
  | exampleClassicControlPolicy (scope_name : String) (action_dim : Nat)
deriving DecidableEq

/-- Result of a v-function builder. -/
inductive VFunctionModel where
  | exampleMujocoVFunction (scope_name : String)
  | exampleClassicControlVFunction (scope_name : String)
deriving DecidableEq

/-- Result of a reward-function builder. -/
inductive RewardFunctionModel where
  | exampleMujocoDiscriminator (scope_name : String)
  | exampleClassicDiscriminator (scope_name : String)
deriving DecidableEq

/-- A solver returned by a solver builder. -/
inductive Solver where
  | adam (alpha : Rat)
deriving DecidableEq

/-- `ExamplePolicyBuilder`. -/
structure ExamplePolicyBuilder where
  is_mujoco : Bool
deriving DecidableEq

/-- `ExamplePolicyBuilder.build_model`. -/
def ExamplePolicyBuilder.build_model (b : ExamplePolicyBuilder) (scope_name : String)
    (env_info : EnvInfo) (algorithm_config : GAILConfig) : PolicyModel :=
  if b.is_mujoco then
    .exampleMujocoPolicy scope_name env_info.action_dim
  else
    .exampleClassicControlPolicy scope_name env_info.action_dim

/-- `ExampleVFunctionBuilder`. -/
structure ExampleVFunctionBuilder where
  is_mujoco : Bool
deriving DecidableEq

/-- `ExampleVFunctionBuilder.build_model`. -/
def ExampleVFunctionBuilder.build_model (b : ExampleVFunctionBuilder) (scope_name : String)
    (env_info : EnvInfo) (algorithm_config : GAILConfig) : VFunctionModel :=
  if b.is_mujoco then
    .exampleMujocoVFunction scope_name
  else
    .exampleClassicControlVFunction scope_name

/-- `ExampleVSolverBuilder` (stateless). -/
structure ExampleVSolverBuilder where
deriving DecidableEq

/-- `ExampleVSolverBuilder.build_solver`: `S.Adam(alpha=config.vf_learning_rate)`. -/
def ExampleVSolverBuilder.build_solver (b : ExampleVSolverBuilder)
    (env_info : EnvInfo) (algorithm_config : GAILConfig) : Solver :=
  Solver.adam algorithm_config.vf_learning_rate

/-- `ExampleRewardFunctionBuilder`. -/
structure ExampleRewardFunctionBuilder where
  is_mujoco : Bool
deriving DecidableEq

/-- `ExampleRewardFunctionBuilder.build_model`. -/
def ExampleRewardFunctionBuilder.build_model (b : ExampleRewardFunctionBuilder)
    (scope_name : String) (env_info : EnvInfo) (algorithm_config : GAILConfig) :
    RewardFunctionModel :=
  if b.is_mujoco then
    .exampleMujocoDiscriminator scope_name
  else
    .exampleClassicDiscriminator scope_name

/-- `ExampleRewardFunctionSolverBuilder` (stateless). -/
structure ExampleRewardFunctionSolverBuilder where
deriving DecidableEq

/-- `ExampleRewardFunctionSolverBuilder.build_solver`:
`S.Adam(alpha=config.discriminator_learning_rate)`. -/
def ExampleRewardFunctionSolverBuilder.build_solver (b : ExampleRewardFunctionSolverBuilder)
    (env_info : EnvInfo) (algorithm_config : GAILConfig) : Solver :=
  Solver.adam algorithm_config.discriminator_learning_rate

/-- The builder-class declarations of the script, for counting: kind (base
class) and covered role. -/
inductive BuilderKind where
  | modelBuilder
  | solverBuilder
deriving DecidableEq

/-- Role a builder class covers. -/
inductive BuilderRole where
  | policy
  | vFunction
  | rewardFunction
  | vSolver
  | rewardSolver
deriving DecidableEq

/-- One builder class declaration of the script. -/
structure BuilderDecl where
  name : String
  kind : BuilderKind
  role : BuilderRole
deriving DecidableEq

/-- The builder classes the script declares, in source order: the subclasses
of `ModelBuilder` and `SolverBuilder` defined at lines 175–219. -/
def scriptBuilderDecls : List BuilderDecl :=
  [⟨"ExamplePolicyBuilder", .modelBuilder, .policy⟩,
   ⟨"ExampleVFunctionBuilder", .modelBuilder, .vFunction⟩,
   ⟨"ExampleVSolverBuilder", .solverBuilder, .vSolver⟩,
   ⟨"ExampleRewardFunctionBuilder", .modelBuilder, .rewardFunction⟩,
   ⟨"ExampleRewardFunctionSolverBuilder", .solverBuilder, .rewardSolver⟩]

/-- `FileWriter(outdir, "evaluation_result")`. -/
structure FileWriter where
  outdir : String
  fileBase : String
deriving DecidableEq

/-- `EpisodicEvaluator(run_per_evaluation=5)`. -/
structure EpisodicEvaluator where
  run_per_evaluation : Nat
deriving DecidableEq

/-- The three hooks the script instantiates. -/
inductive Hook where
  | evaluation (env : Env) (evaluator : EpisodicEvaluator) (timing : Nat) (writer : FileWriter)
  | iterationNum (timing : Nat)
  | saveSnapshot (outdir : String) (timing : Nat)
deriving DecidableEq

/-- Timing of a hook. -/
def Hook.timing : Hook → Nat
  | .evaluation _ _ t _ => t
  | .iterationNum t => t
  | .saveSnapshot _ t => t

/-- The `GAIL(...)` algorithm object, holding the constructor arguments and
the hooks installed by `set_hooks`. -/
structure GAILAlg where
  env : Env
  buffer : ExpertBuffer
  config : GAILConfig
  policy_builder : ExamplePolicyBuilder
  v_function_builder : ExampleVFunctionBuilder
  v_solver_builder : ExampleVSolverBuilder
  reward_function_builder : ExampleRewardFunctionBuilder
  reward_solver_builder : ExampleRewardFunctionSolverBuilder
  hooks : List Hook
deriving DecidableEq

/-- Observable steps of `train()`, in program order. -/
inductive Event where
  | buildEnv (env_name : String) (render : Bool)
  | openFile (path : String) (mode : String)
  | pickleLoad (ok : Bool)
  | createFileWriter (outdir fileBase : String)
  | createEvaluator (run_per_evaluation : Nat)
  | createEvaluationHook (timing : Nat)
  | createIterationNumHook (timing : Nat)
  | createSaveSnapshotHook (outdir : String) (timing : Nat)
  | createGAILConfig
  | createGAIL
  | setHooks (count : Nat)
  | callTrain (env : Env) (total_iterations : Nat)
deriving DecidableEq

/-- Events that create the algorithm object, its configuration, or a hook —
everything the spec says must not happen once loading the expert data has
raised. -/
def Event.isCreation : Event → Bool
  | .createEvaluationHook _ => true
  | .createIterationNumHook _ => true
  | .createSaveSnapshotHook _ _ => true
  | .createGAILConfig => true
  | .createGAIL => true
  | .setHooks _ => true
  | _ => false

/-- Whether an event is the invocation of `gail.train`. -/
def Event.isCallTrain : Event → Bool
  | .callTrain _ _ => true
  | _ => false

/-- Snapshot of `train()`'s local variables when it finishes. -/
structure TrainLocals where
  train_env : Env
  eval_env : Env
  expert_buffer : ExpertBuffer
  evaluation_hook : Hook
  iteration_num_hook : Hook
  save_snapshot_hook : Hook
  config : GAILConfig
  gail : GAILAlg
  total_iterations : Nat
deriving DecidableEq

/-- `train()` from the script, translated line by line.  `vfLr`/`dLr` stand
for the external library's default `vf_learning_rate` and
`discriminator_learning_rate` of `GAILConfig`, which the script never sets;
`file` is the state of `./pendulum_v1_expert_buffer.pkl` on disk.  The result
is the trace of observable events together with the final locals, or `none`
when the function raised while loading the expert data. -/
def train (vfLr dLr : Rat) (file : PickleOutcome) : List Event × Option TrainLocals :=
  let env_name := "Pendulum-v1"
  let train_env := build_classic_control_env env_name false
  let ev := [Event.buildEnv env_name false,
             Event.openFile "./pendulum_v1_expert_buffer.pkl" "rb"]
  match file with
  | .absent => (ev, none)
  | .unpicklable => (ev ++ [Event.pickleLoad false], none)
  | .loaded expert_buffer =>
    let eval_env := build_classic_control_env env_name true
    let evaluation_timing := 10000
    let total_iterations := 1000000
    let pi_batch_size := 10000
    let discriminator_batch_size := 10000
    let num_steps_per_iteration := 10000
    let is_mujoco := false
    let outdir := env_name ++ "_results"
    let writer : FileWriter := ⟨outdir, "evaluation_result"⟩
    let evaluator : EpisodicEvaluator := ⟨5⟩
    let evaluation_hook := Hook.evaluation eval_env evaluator evaluation_timing writer
    let iteration_num_hook := Hook.iterationNum 100
    let save_snapshot_hook := Hook.saveSnapshot outdir evaluation_timing
    let gpu_id : Int := 0
    let config : GAILConfig :=
      ⟨gpu_id, pi_batch_size, num_steps_per_iteration, discriminator_batch_size, vfLr, dLr⟩
    let gail : GAILAlg :=
      ⟨train_env, expert_buffer, config, ⟨is_mujoco⟩, ⟨is_mujoco⟩, ⟨⟩, ⟨is_mujoco⟩, ⟨⟩, []⟩
    let hooks := [evaluation_hook, iteration_num_hook, save_snapshot_hook]
    let gail := { gail with hooks := hooks }
    let events := ev ++
      [Event.pickleLoad true,
       Event.buildEnv env_name true,
       Event.createFileWriter outdir "evaluation_result",
       Event.createEvaluator 5,
       Event.createEvaluationHook evaluation_timing,
       Event.createIterationNumHook 100,
       Event.createSaveSnapshotHook outdir evaluation_timing,
       Event.createGAILConfig,
       Event.createGAIL,
       Event.setHooks hooks.length,
       Event.callTrain train_env total_iterations]
    (events, some ⟨train_env, eval_env, expert_buffer, evaluation_hook, iteration_num_hook,
                   save_snapshot_hook, config, gail, total_iterations⟩)

/-! ## Derived observers and spec-side (pure) network chains -/

/-- Paths of a parameter list, in creation order. -/
def paramPaths (ps : List Param) : List (List String) := ps.map (fun p => p.path)

/-- Output sizes (`n_outmaps`) of the affine layers in a parameter list, in
creation order: the trailing dimension of each weight matrix `W`. -/
def affineOuts (ps : List Param) : List Nat :=
  (ps.filter (fun p => p.path.getLast? == some "W")).map (fun p => p.shape.getLastD 0)

/-- Spec-side pure chain for `ExampleClassicControlVFunction.v`:
`affine(relu(affine(relu(affine(s, 64)), 64)), 1)`. -/
def classicVChain (scope : String) (s : NExpr) : NExpr :=
  NExpr.affine (NExpr.relu (NExpr.affine (NExpr.relu
    (NExpr.affine s [scope, "affine1"] 64)) [scope, "affine2"] 64)) [scope, "affine3"] 1

/-- Spec-side pure chain for `ExampleMujocoVFunction.v`:
`affine(tanh(affine(tanh(affine(s, 100)), 100)), 1)`. -/
def mujocoVChain (scope : String) (s : NExpr) : NExpr :=
  NExpr.affine (NExpr.tanh (NExpr.affine (NExpr.tanh
    (NExpr.affine s [scope, "linear1"] 100)) [scope, "linear2"] 100)) [scope, "linear3"] 1

/-- Spec-side pure chain for both discriminators applied to the concatenation
`h` of state and action: `affine(tanh(affine(tanh(affine(h, w)), w)), 1)`. -/
def discChain (scope : String) (w : Nat) (h : NExpr) : NExpr :=
  NExpr.affine (NExpr.tanh (NExpr.affine (NExpr.tanh
    (NExpr.affine h [scope, "linear1"] w)) [scope, "linear2"] w)) [scope, "linear3"] 1

/-- Pre-reshape trunk of `ExampleClassicControlPolicy.pi`: three affine layers
with relu after the first two, ending in `action_dim * 2` outputs. -/
def classicPiH (scope : String) (action_dim : Nat) (s : NExpr) : NExpr :=
  NExpr.affine (NExpr.relu (NExpr.affine (NExpr.relu
    (NExpr.affine s [scope, "affine1"] 64)) [scope, "affine2"] 64)) [scope, "affine3"]
    (action_dim * 2)

/-- Mean of `ExampleMujocoPolicy.pi`: three affine layers with tanh after the
first two, ending in `action_dim` outputs. -/
def mujocoPiMean (scope : String) (action_dim : Nat) (s : NExpr) : NExpr :=
  NExpr.affine (NExpr.tanh (NExpr.affine (NExpr.tanh
    (NExpr.affine s [scope, "linear1"] 100)) [scope, "linear2"] 100)) [scope, "linear3"]
    action_dim

/-- The parameters `ExampleMujocoPolicy.pi` creates before its `assert`
(those of the three affines); `ln_sigma` is created only when the assert
passes. -/
def mujocoPiParamsBase (scope : String) (action_dim : Nat) (s : NExpr) : List Param :=
  [⟨[scope, "linear1", "affine", "W"], [lastDim s, 100]⟩,
   ⟨[scope, "linear1", "affine", "b"], [100]⟩,
   ⟨[scope, "linear2", "affine", "W"],
      [lastDim (NExpr.tanh (NExpr.affine s [scope, "linear1"] 100)), 100]⟩,
   ⟨[scope, "linear2", "affine", "b"], [100]⟩,
   ⟨[scope, "linear3", "affine", "W"],
      [lastDim (NExpr.tanh (NExpr.affine (NExpr.tanh (NExpr.affine s [scope, "linear1"] 100))
        [scope, "linear2"] 100)), action_dim]⟩,
   ⟨[scope, "linear3", "affine", "b"], [action_dim]⟩]

/-- Index of the first event satisfying `p`. -/
def firstIdx (p : Event → Bool) (l : List Event) : Nat := l.findIdx p

/-! ## Helper lemmas -/

theorem head_of_paths (L : List (List String)) {scope : String} {ps : List Param}
    (hP : paramPaths ps = L) (hL : ∀ l ∈ L, l.head? = some scope) :
    ∀ p ∈ ps, p.path.head? = some scope := by
  intro p hp
  exact hL _ (hP ▸ List.mem_map_of_mem _ hp)

theorem mujocoPi_run_pos (scope : String) (a : Nat) (s : NExpr)
    (hc : eshape (mujocoPiMean scope a s) = some [dim0 s, a]) :
    runNN (ExampleMujocoPolicy.pi scope a s) =
      (some ⟨mujocoPiMean scope a s,
             NExpr.mulScalar (NExpr.broadcastTo (NExpr.pvar [scope, "ln_sigma"] [1, a])
               [dim0 s, a]) 2⟩,
       mujocoPiParamsBase scope a s ++ [⟨[scope, "ln_sigma"], [1, a]⟩]) := by
  have hc' : eshape (NExpr.affine (NExpr.tanh (NExpr.affine (NExpr.tanh
      (NExpr.affine s [scope, "linear1"] 100)) [scope, "linear2"] 100)) [scope, "linear3"] a) =
      some [dim0 s, a] := hc
  unfold runNN ExampleMujocoPolicy.pi parameter_scope
  simp only [bind, StateT.bind, pure, StateT.pure, PF.affine, get_parameter_or_create,
    F.tanh, F.broadcast, Option.toList, List.nil_append, List.cons_append, List.append_nil]
  rw [if_pos hc']
  rfl

theorem mujocoPi_run_neg (scope : String) (a : Nat) (s : NExpr)
    (hc : ¬ eshape (mujocoPiMean scope a s) = some [dim0 s, a]) :
    runNN (ExampleMujocoPolicy.pi scope a s) = (none, mujocoPiParamsBase scope a s) := by
  have hc' : ¬ eshape (NExpr.affine (NExpr.tanh (NExpr.affine (NExpr.tanh
      (NExpr.affine s [scope, "linear1"] 100)) [scope, "linear2"] 100)) [scope, "linear3"] a) =
      some [dim0 s, a] := hc
  unfold runNN ExampleMujocoPolicy.pi parameter_scope
  simp only [bind, StateT.bind, pure, StateT.pure, PF.affine, get_parameter_or_create,
    F.tanh, F.broadcast, Option.toList, List.nil_append, List.cons_append, List.append_nil]
  rw [if_neg hc']
  rfl

theorem heads_affine_paths (scope : String) :
    ∀ l ∈ [[scope, "affine1", "affine", "W"], [scope, "affine1", "affine", "b"],
           [scope, "affine2", "affine", "W"], [scope, "affine2", "affine", "b"],
           [scope, "affine3", "affine", "W"], [scope, "affine3", "affine", "b"]],
      l.head? = some scope := by
  intro l hl
  simp only [List.mem_cons, List.not_mem_nil, or_false] at hl
  rcases hl with rfl | rfl | rfl | rfl | rfl | rfl <;> rfl

theorem heads_linear_paths (scope : String) :
    ∀ l ∈ [[scope, "linear1", "affine", "W"], [scope, "linear1", "affine", "b"],
           [scope, "linear2", "affine", "W"], [scope, "linear2", "affine", "b"],
           [scope, "linear3", "affine", "W"], [scope, "linear3", "affine", "b"]],
      l.head? = some scope := by
  intro l hl
  simp only [List.mem_cons, List.not_mem_nil, or_false] at hl
  rcases hl with rfl | rfl | rfl | rfl | rfl | rfl <;> rfl

theorem heads_linear_sigma_paths (scope : String) :
    ∀ l ∈ [[scope, "linear1", "affine", "W"], [scope, "linear1", "affine", "b"],
           [scope, "linear2", "affine", "W"], [scope, "linear2", "affine", "b"],
           [scope, "linear3", "affine", "W"], [scope, "linear3", "affine", "b"],
           [scope, "ln_sigma"]],
      l.head? = some scope := by
  intro l hl
  simp only [List.mem_cons, List.not_mem_nil, or_false] at hl
  rcases hl with rfl | rfl | rfl | rfl | rfl | rfl | rfl <;> rfl

/-! ## Claims -/

/-- C4: every network is scope-named with fixed hidden-layer widths and
activation choices: all parameters created by a model's forward pass (`v`,
`pi` or `r`) live under a parameter scope headed by the model's
`scope_name`; the affine output widths are the compile-time constants
`[64, 64, ...]` for the classic-control networks (relu in the value
function) and `[100, 100, ...]` for the mujoco networks (tanh), for every
input expression; and the value-function and discriminator graphs equal
their fixed chains, exhibiting the activation choices. -/
theorem networks_scoped_fixed_widths :
    ∀ (scope : String) (action_dim : Nat) (s a sn : NExpr),
      ((∀ p ∈ (runNN (ExampleClassicControlVFunction.v scope s)).2,
          p.path.head? = some scope) ∧
       affineOuts (runNN (ExampleClassicControlVFunction.v scope s)).2 = [64, 64, 1] ∧
       (runNN (ExampleClassicControlVFunction.v scope s)).1 = classicVChain scope s) ∧
      ((∀ p ∈ (runNN (ExampleMujocoVFunction.v scope s)).2,
          p.path.head? = some scope) ∧
       affineOuts (runNN (ExampleMujocoVFunction.v scope s)).2 = [100, 100, 1] ∧
       (runNN (ExampleMujocoVFunction.v scope s)).1 = mujocoVChain scope s) ∧
      ((∀ p ∈ (runNN (ExampleClassicControlPolicy.pi scope action_dim s)).2,
          p.path.head? = some scope) ∧
       affineOuts (runNN (ExampleClassicControlPolicy.pi scope action_dim s)).2 =
         [64, 64, action_dim * 2] ∧
       (runNN (ExampleClassicControlPolicy.pi scope action_dim s)).1 =
         ⟨NExpr.split1 (NExpr.reshapeM1 (classicPiH scope action_dim s) 2 action_dim) 0,
          NExpr.mulScalar
            (NExpr.split1 (NExpr.reshapeM1 (classicPiH scope action_dim s) 2 action_dim) 1) 2⟩) ∧
      ((∀ p ∈ (runNN (ExampleMujocoPolicy.pi scope action_dim s)).2,
          p.path.head? = some scope) ∧
       affineOuts (runNN (ExampleMujocoPolicy.pi scope action_dim s)).2 =
         [100, 100, action_dim]) ∧
      ((∀ p ∈ (runNN (ExampleClassicDiscriminator.r scope s a sn)).2,
          p.path.head? = some scope) ∧
       affineOuts (runNN (ExampleClassicDiscriminator.r scope s a sn)).2 = [64, 64, 1] ∧
       (runNN (ExampleClassicDiscriminator.r scope s a sn)).1 =
         discChain scope 64 (NExpr.concat2 s a)) ∧
      ((∀ p ∈ (runNN (ExampleMujocoDiscriminator.r scope s a sn)).2,
          p.path.head? = some scope) ∧
       affineOuts (runNN (ExampleMujocoDiscriminator.r scope s a sn)).2 = [100, 100, 1] ∧
       (runNN (ExampleMujocoDiscriminator.r scope s a sn)).1 =
         discChain scope 100 (NExpr.concat2 s a)) := by
  intro scope action_dim s a sn
  refine ⟨⟨?_, rfl, rfl⟩, ⟨?_, rfl, rfl⟩, ⟨?_, rfl, rfl⟩, ⟨?_, ?_⟩,
          ⟨?_, rfl, rfl⟩, ⟨?_, rfl, rfl⟩⟩
  · exact head_of_paths _ rfl (heads_affine_paths scope)
  · exact head_of_paths _ rfl (heads_linear_paths scope)
  · exact head_of_paths _ rfl (heads_affine_paths scope)
  · by_cases hc : eshape (mujocoPiMean scope action_dim s) = some [dim0 s, action_dim]
    · rw [mujocoPi_run_pos scope action_dim s hc]
      exact head_of_paths _ rfl (heads_linear_sigma_paths scope)
    · rw [mujocoPi_run_neg scope action_dim s hc]
      exact head_of_paths _ rfl (heads_linear_paths scope)
  · by_cases hc : eshape (mujocoPiMean scope action_dim s) = some [dim0 s, action_dim]
    · rw [mujocoPi_run_pos scope action_dim s hc]
      rfl
    · rw [mujocoPi_run_neg scope action_dim s hc]
      rfl
  · exact head_of_paths _ rfl (heads_linear_paths scope)
  · exact head_of_paths _ rfl (heads_linear_paths scope)

/-- Witness for C4 at concrete inputs: a parameter of each flavour is indeed
headed by the model's scope name, and the widths evaluate. -/
theorem networks_scoped_fixed_widths_witness :
    (Param.mk ["m", "affine1", "affine", "W"] [3, 64]).path.head? = some "m" ∧
    (Param.mk ["m", "linear1", "affine", "W"] [3, 100]).path.head? = some "m" ∧
    (Param.mk ["m", "ln_sigma"] [1, 1]).path.head? = some "m" ∧
    affineOuts (runNN (ExampleClassicControlVFunction.v "m" (NExpr.input 0 [2, 3]))).2 =
      [64, 64, 1] :=
  ⟨(networks_scoped_fixed_widths "m" 1 (NExpr.input 0 [2, 3]) (NExpr.input 1 [2, 1])
      (NExpr.input 2 [2, 3])).1.1 _ (by decide),
   (networks_scoped_fixed_widths "m" 1 (NExpr.input 0 [2, 3]) (NExpr.input 1 [2, 1])
      (NExpr.input 2 [2, 3])).2.1.1 _ (by decide),
   (networks_scoped_fixed_widths "m" 1 (NExpr.input 0 [2, 3]) (NExpr.input 1 [2, 1])
      (NExpr.input 2 [2, 3])).2.2.2.1.1 _ (by decide),
   (networks_scoped_fixed_widths "m" 1 (NExpr.input 0 [2, 3]) (NExpr.input 1 [2, 1])
      (NExpr.input 2 [2, 3])).1.2.1⟩

/-- C5: `ExampleClassicControlVFunction.v(s)` is exactly the pure chain
`affine(relu(affine(relu(affine(s, 64)), 64)), 1)`, and on a batched input of
shape `(b, d)` it outputs shape `(b, 1)` — one scalar per batch row. -/
theorem classic_v_feedforward_chain :
    ∀ (scope : String) (s : NExpr),
      (runNN (ExampleClassicControlVFunction.v scope s)).1 = classicVChain scope s ∧
      ∀ b d : Nat, eshape s = some [b, d] →
        eshape (runNN (ExampleClassicControlVFunction.v scope s)).1 = some [b, 1] := by
  intro scope s
  refine ⟨rfl, ?_⟩
  intro b d h
  show eshape (classicVChain scope s) = some [b, 1]
  simp [classicVChain, eshape, h]

/-- Witness for C5 on a concrete batched input of shape `(3, 5)`. -/
theorem classic_v_feedforward_chain_witness :
    (runNN (ExampleClassicControlVFunction.v "v" (NExpr.input 0 [3, 5]))).1 =
      classicVChain "v" (NExpr.input 0 [3, 5]) ∧
    eshape (runNN (ExampleClassicControlVFunction.v "v" (NExpr.input 0 [3, 5]))).1 =
      some [3, 1] :=
  ⟨(classic_v_feedforward_chain "v" (NExpr.input 0 [3, 5])).1,
   (classic_v_feedforward_chain "v" (NExpr.input 0 [3, 5])).2 3 5 rfl⟩

/-- C8: both discriminators ignore the next state entirely — same graph and
same created parameters for any two next states — and their output depends
on state and action only through the concatenation. -/
theorem discriminators_ignore_next_state :
    ∀ (scope : String) (s_current a_current s_next1 s_next2 : NExpr),
      runNN (ExampleClassicDiscriminator.r scope s_current a_current s_next1) =
        runNN (ExampleClassicDiscriminator.r scope s_current a_current s_next2) ∧
      runNN (ExampleMujocoDiscriminator.r scope s_current a_current s_next1) =
        runNN (ExampleMujocoDiscriminator.r scope s_current a_current s_next2) ∧
      (runNN (ExampleClassicDiscriminator.r scope s_current a_current s_next1)).1 =
        discChain scope 64 (F.concatenate s_current a_current) ∧
      (runNN (ExampleMujocoDiscriminator.r scope s_current a_current s_next1)).1 =
        discChain scope 100 (F.concatenate s_current a_current) :=
  fun _ _ _ _ _ => ⟨rfl, rfl, rfl, rfl⟩

/-- C9: on any 2-D batched input of shape `(b, d)` the assert inside
`ExampleMujocoPolicy.pi` holds — the mean has shape `(b, action_dim)` — so
`pi` returns a Gaussian whose mean and broadcast `ln_var` both have shape
`(b, action_dim)`. -/
theorem mujoco_pi_assert_holds :
    ∀ (scope : String) (action_dim b d : Nat) (s : NExpr), eshape s = some [b, d] →
      (runNN (ExampleMujocoPolicy.pi scope action_dim s)).1 =
        some ⟨mujocoPiMean scope action_dim s,
              NExpr.mulScalar (NExpr.broadcastTo
                (NExpr.pvar [scope, "ln_sigma"] [1, action_dim]) [b, action_dim]) 2⟩ ∧
      eshape (mujocoPiMean scope action_dim s) = some [b, action_dim] ∧
      eshape (NExpr.mulScalar (NExpr.broadcastTo
        (NExpr.pvar [scope, "ln_sigma"] [1, action_dim]) [b, action_dim]) 2) =
        some [b, action_dim] := by
  intro scope action_dim b d s h
  have hdim : dim0 s = b := by simp [dim0, h]
  have hmean : eshape (mujocoPiMean scope action_dim s) = some [b, action_dim] := by
    simp [mujocoPiMean, eshape, h]
  have hc : eshape (mujocoPiMean scope action_dim s) = some [dim0 s, action_dim] := by
    rw [hdim]; exact hmean
  refine ⟨?_, hmean, ?_⟩
  · rw [mujocoPi_run_pos scope action_dim s hc, hdim]
  · simp [eshape, broadcastable]

/-- Witness for C9 on a concrete batched input of shape `(3, 5)` with
`action_dim = 2`. -/
theorem mujoco_pi_assert_holds_witness :
    (runNN (ExampleMujocoPolicy.pi "pi" 2 (NExpr.input 0 [3, 5]))).1 =
      some ⟨mujocoPiMean "pi" 2 (NExpr.input 0 [3, 5]),
            NExpr.mulScalar (NExpr.broadcastTo (NExpr.pvar ["pi", "ln_sigma"] [1, 2]) [3, 2]) 2⟩ ∧
    eshape (mujocoPiMean "pi" 2 (NExpr.input 0 [3, 5])) = some [3, 2] ∧
    eshape (NExpr.mulScalar (NExpr.broadcastTo (NExpr.pvar ["pi", "ln_sigma"] [1, 2]) [3, 2]) 2) =
      some [3, 2] :=
  mujoco_pi_assert_holds "pi" 2 3 5 (NExpr.input 0 [3, 5]) rfl

/-- C1 counterexample: the script declares five builder classes (three
`ModelBuilder` and two `SolverBuilder` subclasses), not four. -/
theorem scriptBuilderDecls_not_four : ¬ scriptBuilderDecls.length = 4 := by decide

/-- C1 (amended): the set of builder classes the script declares has exactly
five members — three `ModelBuilder` subclasses covering policy, value
function and discriminator, and two `SolverBuilder` subclasses covering
their solvers/optimizers — with pairwise distinct names. -/
theorem scriptBuilderDecls_five_partitioned :
    scriptBuilderDecls.length = 5 ∧
    (scriptBuilderDecls.filter (fun b => b.kind == BuilderKind.modelBuilder)).map
        (fun b => b.role) =
      [BuilderRole.policy, BuilderRole.vFunction, BuilderRole.rewardFunction] ∧
    (scriptBuilderDecls.filter (fun b => b.kind == BuilderKind.solverBuilder)).map
        (fun b => b.role) =
      [BuilderRole.vSolver, BuilderRole.rewardSolver] ∧
    (scriptBuilderDecls.map (fun b => b.name)).Nodup := by decide

/-- C2: `build_classic_control_env` always wraps the gym environment in
`NumpyFloat32Env`, adds `ScreenRenderEnv` iff `render` is true, and `train()`
builds its training environment with `render = False` and its evaluation
environment with `render = True`. -/
theorem build_env_wrapping :
    (∀ (env_name : String) (render : Bool),
        build_classic_control_env env_name render =
          (if render then Env.screenRender (Env.numpyFloat32 (Env.base env_name))
           else Env.numpyFloat32 (Env.base env_name)) ∧
        (build_classic_control_env env_name render).isScreenRendered = render) ∧
    (∀ (vfLr dLr : Rat) (buf : ExpertBuffer),
        ((train vfLr dLr (PickleOutcome.loaded buf)).2).map
            (fun r => (r.train_env, r.eval_env)) =
          some (build_classic_control_env "Pendulum-v1" false,
                build_classic_control_env "Pendulum-v1" true)) := by
  constructor
  · intro env_name render
    cases render <;> exact ⟨rfl, rfl⟩
  · intro vfLr dLr buf
    rfl

/-- C3: `train()` constructs a single `GAILConfig` with
`pi_batch_size = discriminator_batch_size = num_steps_per_iteration = 10000`
and installs exactly the three hooks (evaluation at timing 10000, iteration
number at timing 100, snapshot saving at timing 10000) on the algorithm
before invoking training. -/
theorem train_config_and_hooks :
    ∀ (vfLr dLr : Rat) (buf : ExpertBuffer),
      ((train vfLr dLr (PickleOutcome.loaded buf)).1.filter
          (fun e => e == Event.createGAILConfig)).length = 1 ∧
      ((train vfLr dLr (PickleOutcome.loaded buf)).2).map
          (fun r => (r.config.pi_batch_size, r.config.discriminator_batch_size,
                     r.config.num_steps_per_iteration)) =
        some (10000, 10000, 10000) ∧
      ((train vfLr dLr (PickleOutcome.loaded buf)).2).map (fun r => r.gail.hooks) =
        some [Hook.evaluation (build_classic_control_env "Pendulum-v1" true) ⟨5⟩ 10000
                ⟨"Pendulum-v1_results", "evaluation_result"⟩,
              Hook.iterationNum 100,
              Hook.saveSnapshot "Pendulum-v1_results" 10000] ∧
      (train vfLr dLr (PickleOutcome.loaded buf)).1.get? 11 = some (Event.setHooks 3) ∧
      firstIdx (fun e => e == Event.setHooks 3) (train vfLr dLr (PickleOutcome.loaded buf)).1 <
        firstIdx Event.isCallTrain (train vfLr dLr (PickleOutcome.loaded buf)).1 :=
  fun _ _ _ => ⟨rfl, rfl, rfl, rfl, by exact (by decide : (11 : Nat) < 12)⟩

/-- C6: `train()` opens `./pendulum_v1_expert_buffer.pkl` in binary read mode
and unpickles it before the GAIL algorithm object is constructed; if the
file is absent or unpicklable, `train()` raises and no configuration, hooks
or algorithm object are created after that point. -/
theorem train_loads_expert_before_gail :
    ∀ (vfLr dLr : Rat),
      ((train vfLr dLr PickleOutcome.absent).2 = none ∧
       (train vfLr dLr PickleOutcome.absent).1 =
         [Event.buildEnv "Pendulum-v1" false,
          Event.openFile "./pendulum_v1_expert_buffer.pkl" "rb"] ∧
       (train vfLr dLr PickleOutcome.absent).1.all (fun e => ! e.isCreation) = true) ∧
      ((train vfLr dLr PickleOutcome.unpicklable).2 = none ∧
       (train vfLr dLr PickleOutcome.unpicklable).1 =
         [Event.buildEnv "Pendulum-v1" false,
          Event.openFile "./pendulum_v1_expert_buffer.pkl" "rb",
          Event.pickleLoad false] ∧
       (train vfLr dLr PickleOutcome.unpicklable).1.all (fun e => ! e.isCreation) = true) ∧
      (∀ buf : ExpertBuffer,
        (train vfLr dLr (PickleOutcome.loaded buf)).1.get? 1 =
          some (Event.openFile "./pendulum_v1_expert_buffer.pkl" "rb") ∧
        (train vfLr dLr (PickleOutcome.loaded buf)).1.get? 2 =
          some (Event.pickleLoad true) ∧
        (train vfLr dLr (PickleOutcome.loaded buf)).1.get? 10 = some Event.createGAIL ∧
        firstIdx (fun e => e == Event.pickleLoad true)
            (train vfLr dLr (PickleOutcome.loaded buf)).1 <
          firstIdx (fun e => e == Event.createGAIL)
            (train vfLr dLr (PickleOutcome.loaded buf)).1 ∧
        ((train vfLr dLr (PickleOutcome.loaded buf)).2).map (fun r => r.gail.buffer) =
          some buf) :=
  fun _ _ =>
    ⟨⟨rfl, rfl, rfl⟩, ⟨rfl, rfl, rfl⟩,
     fun _ => ⟨rfl, rfl, rfl, by exact (by decide : (2 : Nat) < 10), rfl⟩⟩

/-- C7: after assembling models, solvers, configuration and hooks, `train()`
invokes the library training loop exactly once, as
`gail.train(train_env, total_iterations=1000000)`, with the very training
environment that was passed to the `GAIL` constructor. -/
theorem gail_train_called_once :
    ∀ (vfLr dLr : Rat) (buf : ExpertBuffer),
      (train vfLr dLr (PickleOutcome.loaded buf)).1.filter Event.isCallTrain =
        [Event.callTrain (build_classic_control_env "Pendulum-v1" false) 1000000] ∧
      ((train vfLr dLr (PickleOutcome.loaded buf)).2).map
          (fun r => (r.gail.env, r.train_env, r.total_iterations)) =
        some (build_classic_control_env "Pendulum-v1" false,
              build_classic_control_env "Pendulum-v1" false, 1000000) ∧
      (train vfLr dLr (PickleOutcome.loaded buf)).1.get? 12 =
        some (Event.callTrain (build_classic_control_env "Pendulum-v1" false) 1000000) :=
  fun _ _ _ => ⟨rfl, rfl, rfl⟩

/-- C10: builder dispatch is total and deterministic on `is_mujoco`: each
model builder returns the mujoco class for `is_mujoco = true` and the
classic-control class otherwise (policy builders passing
`env_info.action_dim` through), and the two solver builders always return
Adam solvers with `alpha` equal to `config.vf_learning_rate` resp.
`config.discriminator_learning_rate`. -/
theorem builder_dispatch :
    ∀ (scope_name : String) (env_info : EnvInfo) (cfg : GAILConfig),
      ExamplePolicyBuilder.build_model ⟨true⟩ scope_name env_info cfg =
        PolicyModel.exampleMujocoPolicy scope_name env_info.action_dim ∧
      ExamplePolicyBuilder.build_model ⟨false⟩ scope_name env_info cfg =
        PolicyModel.exampleClassicControlPolicy scope_name env_info.action_dim ∧
      ExampleVFunctionBuilder.build_model ⟨true⟩ scope_name env_info cfg =
        VFunctionModel.exampleMujocoVFunction scope_name ∧
      ExampleVFunctionBuilder.build_model ⟨false⟩ scope_name env_info cfg =
        VFunctionModel.exampleClassicControlVFunction scope_name ∧
      ExampleRewardFunctionBuilder.build_model ⟨true⟩ scope_name env_info cfg =
        RewardFunctionModel.exampleMujocoDiscriminator scope_name ∧
      ExampleRewardFunctionBuilder.build_model ⟨false⟩ scope_name env_info cfg =
        RewardFunctionModel.exampleClassicDiscriminator scope_name ∧
      ExampleVSolverBuilder.build_solver ⟨⟩ env_info cfg =
        Solver.adam cfg.vf_learning_rate ∧
      ExampleRewardFunctionSolverBuilder.build_solver ⟨⟩ env_info cfg =
        Solver.adam cfg.discriminator_learning_rate :=
  fun _ _ _ => ⟨rfl, rfl, rfl, rfl, rfl, rfl, rfl, rfl⟩
